import Mathlib

/-!
Shallow embedding of the smart-bulb device communication layer:
`src/mcp_server_smartbulb/udp_client.py` (UDPBulbClient) and
`src/mcp_server_smartbulb/bulb_discovery.py` (BulbDiscovery).

Network effects are parametrised: each awaited reply is resolved by a
`WireOutcome` argument (delivered reply / timeout / send failure / cancellation
by `close`), and freshly generated correlation ids and futures are passed in as
arguments (`freshId`, `newFut`).  Every operation returns its Python result
(`Except` distinguishes a raised exception from a returned value) together with
the successor client state and the list of datagrams transmitted.
-/

set_option autoImplicit false

namespace SmartBulb

/-- Python `dict` keyed by strings, as an association list with unique keys. -/
abbrev Dict (α : Type) := List (String × α)

/-- Python `d.get(k)` / `d[k]`: the value at the first matching key. -/
def dictLookup {α : Type} : Dict α → String → Option α
  | [], _ => none
  | (k', v) :: rest, k => if k' = k then some v else dictLookup rest k

/-- Python `d[k] = v`: replace the value at `k`, or append a new entry. -/
def dictInsert {α : Type} : Dict α → String → α → Dict α
  | [], k, v => [(k, v)]
  | (k', v') :: rest, k, v =>
      if k' = k then (k, v) :: rest else (k', v') :: dictInsert rest k v

/-- Python `d.pop(k, None)`: drop the entry at `k` if present. -/
def dictErase {α : Type} : Dict α → String → Dict α
  | [], _ => []
  | (k', v') :: rest, k => if k' = k then rest else (k', v') :: dictErase rest k

/-- Well-formedness of a `Dict`: keys are pairwise distinct, as in a Python
`dict`.  Every table built by the client operations satisfies it. -/
def dictWF {α : Type} (d : Dict α) : Prop := (d.map Prod.fst).Nodup

/-- Configuration for a smart bulb connection (`BulbConfig`).  The timeout is
kept as a natural number of time units; no claim depends on its value. -/
structure BulbConfig where
  ip : String
  port : Nat
  timeout : Nat
  deriving DecidableEq, Repr

/-- Parameter payloads occurring in the recognized commands (`params`). -/
inductive BulbParams where
  | power (p : Bool)
  | brightness (b : Int)
  | color (r g b : Int)
  deriving DecidableEq, Repr

/-- Command to send to a smart bulb (`BulbCommand`). -/
structure BulbCommand where
  command : String
  params : Option BulbParams := none
  id : Option String := none
  deriving DecidableEq, Repr

/-- Fields that a `get_status` reply's `data` mapping may carry (spec section 6:
`power, brightness, color, connected`); `none` means the key is absent. -/
structure StatusFields where
  power : Option Bool := none
  brightness : Option Int := none
  color : Option (Int × Int × Int) := none
  connected : Option Bool := none
  deriving DecidableEq, Repr

/-- Python truthiness of the `data` dict: non-empty. -/
def StatusFields.truthy (d : StatusFields) : Bool :=
  d.power.isSome || d.brightness.isSome || d.color.isSome || d.connected.isSome

/-- Response from a smart bulb (`BulbResponse`). -/
structure BulbResponse where
  success : Bool
  data : Option StatusFields := none
  error : Option String := none
  id : Option String := none
  deriving DecidableEq, Repr

/-- The client's cached device snapshot (`self.last_status`). -/
structure LastStatus where
  power : Bool
  brightness : Int
  color : Int × Int × Int
  connected : Bool
  deriving DecidableEq, Repr

/-- Initial snapshot set in `UDPBulbClient.__init__`. -/
def initialLastStatus : LastStatus :=
  { power := false, brightness := 0, color := (255, 255, 255), connected := false }

/-- Exceptions raised by the embedded code. -/
inductive PyError where
  | connectionError (msg : String)
  | valueError (msg : String)
  | cancelledError
  deriving DecidableEq, Repr

/-- How the await on one in-flight command's future resolves:
a reply datagram delivered for its correlation id, `asyncio.TimeoutError`,
some other exception raised in the `try` body (e.g. a `sendto` failure), or
cancellation of the future by `close`.  `CancelledError` is a `BaseException`
in Python, so it is not caught by `except Exception`. -/
inductive WireOutcome where
  | delivered (resp : BulbResponse)
  | timeout
  | sendFailure (msg : String)
  | cancelled
  deriving DecidableEq, Repr

/-- One UDP datagram transmitted to the bulb, i.e. the `command_data` dict
(`command`, `id`, optional `params`) serialized in `send_command`. -/
structure Datagram where
  command : String
  id : String
  params : Option BulbParams
  deriving DecidableEq, Repr

/-- State of one `UDPBulbClient`: its configuration, the pending table
(correlation id → future, futures as tokens), whether `self.socket` is set,
the `running` flag and the cached snapshot. -/
structure UDPBulbClient where
  config : BulbConfig
  pending_commands : Dict Nat
  socketOpen : Bool
  running : Bool
  last_status : LastStatus
  deriving DecidableEq, Repr

/-- `UDPBulbClient.__init__`. -/
def UDPBulbClient.init (config : BulbConfig) : UDPBulbClient :=
  { config := config, pending_commands := [], socketOpen := false,
    running := false, last_status := initialLastStatus }

/-- Observable outcome of one `send_command` call: the returned response or the
raised exception, the client state afterwards, the datagrams transmitted, and
the pending table as it stood right after the new future was registered
(before the `finally` cleanup). -/
structure SendResult where
  result : Except PyError BulbResponse
  client : UDPBulbClient
  sent : List Datagram
  registered : Dict Nat

/-- Shallow embedding of `UDPBulbClient.send_command`.

`freshId` stands for the `generate_command_id()` value used when the command
carries no id (Python `if not command.id:` treats both `None` and the empty
string as absent); `newFut` is the future created for this call; `outcome`
resolves the await.  Faithful details: there is no collision check — the
assignment `self.pending_commands[command.id] = response_future` overwrites any
existing entry at that id; `asyncio.TimeoutError` and other exceptions in the
`try` body are converted to failure responses carrying the correlation id,
while a `CancelledError` (a `BaseException`) propagates; the `finally` block
pops the id from the pending table on every path (if `close` ran concurrently
it has additionally cleared the remaining entries, an effect modelled by
`UDPBulbClient.close` itself). -/
def UDPBulbClient.send_command (self : UDPBulbClient) (command : BulbCommand)
    (freshId : String) (newFut : Nat) (outcome : WireOutcome) : SendResult :=
  if self.socketOpen ∧ self.running then
    let cid := match command.id with
      | none => freshId
      | some s => if s = "" then freshId else s
    let datagram : Datagram :=
      { command := command.command, id := cid, params := command.params }
    let registered := dictInsert self.pending_commands cid newFut
    let cleaned := dictErase registered cid
    match outcome with
    | .delivered resp =>
        { result := .ok resp,
          client := { self with pending_commands := cleaned },
          sent := [datagram], registered := registered }
    | .timeout =>
        { result := .ok { success := false, error := some "Command timeout", id := some cid },
          client := { self with pending_commands := cleaned },
          sent := [datagram], registered := registered }
    | .sendFailure msg =>
        { result := .ok { success := false, error := some msg, id := some cid },
          client := { self with pending_commands := cleaned },
          sent := [], registered := registered }
    | .cancelled =>
        { result := .error .cancelledError,
          client := { self with pending_commands := cleaned },
          sent := [datagram], registered := registered }
  else
    { result := .error (.connectionError "Not connected to bulb"),
      client := self, sent := [], registered := self.pending_commands }

/-- Result of a device-level operation returning a Python bool. -/
structure BoolOpResult where
  result : Except PyError Bool
  client : UDPBulbClient
  sent : List Datagram

/-- Shallow embedding of `UDPBulbClient.ping`: one `send_command` of a bare
`ping` command, returning `response.success`. -/
def UDPBulbClient.ping (self : UDPBulbClient)
    (freshId : String) (newFut : Nat) (outcome : WireOutcome) : BoolOpResult :=
  let r := self.send_command { command := "ping" } freshId newFut outcome
  match r.result with
  | .ok resp => { result := .ok resp.success, client := r.client, sent := r.sent }
  | .error e => { result := .error e, client := r.client, sent := r.sent }

/-- Result of `connect` (returns `None` on success). -/
structure ConnectResult where
  result : Except PyError Unit
  client : UDPBulbClient
  sent : List Datagram

/-- Shallow embedding of `UDPBulbClient.connect`: create the datagram socket,
set `running`, issue one `ping` probe, then set `last_status["connected"] =
True`.  Faithful details: the boolean returned by `ping` is discarded, so the
`except Exception` branch (which would mark the snapshot unreachable and
re-raise) fires only when `ping` itself raises; `CancelledError` is not an
`Exception`, so it propagates without entering that branch. -/
def UDPBulbClient.connect (self : UDPBulbClient)
    (freshId : String) (newFut : Nat) (probeOutcome : WireOutcome) : ConnectResult :=
  let opened := { self with socketOpen := true, running := true }
  let probe := opened.ping freshId newFut probeOutcome
  match probe.result with
  | .ok _ =>
      { result := .ok (),
        client := { probe.client with
                      last_status := { probe.client.last_status with connected := true } },
        sent := probe.sent }
  | .error .cancelledError =>
      { result := .error .cancelledError, client := probe.client, sent := probe.sent }
  | .error e =>
      { result := .error e,
        client := { probe.client with
                      last_status := { probe.client.last_status with connected := false } },
        sent := probe.sent }

/-- Shallow embedding of `UDPBulbClient.close`: stop the receive state, cancel
and clear all pending commands (each suspended call observes
`WireOutcome.cancelled`), release the socket. -/
def UDPBulbClient.close (self : UDPBulbClient) : UDPBulbClient :=
  { self with running := false, pending_commands := [], socketOpen := false }

/-- Shallow embedding of `UDPBulbClient.turn_on`: one `set_power {power: True}`
command; on a success response the cached power state is set. -/
def UDPBulbClient.turn_on (self : UDPBulbClient)
    (freshId : String) (newFut : Nat) (outcome : WireOutcome) : BoolOpResult :=
  let r := self.send_command
    { command := "set_power", params := some (.power true) } freshId newFut outcome
  match r.result with
  | .ok resp =>
      { result := .ok resp.success,
        client := if resp.success then
            { r.client with last_status := { r.client.last_status with power := true } }
          else r.client,
        sent := r.sent }
  | .error e => { result := .error e, client := r.client, sent := r.sent }

/-- Shallow embedding of `UDPBulbClient.turn_off`: one `set_power {power: False}`
command; on a success response the cached power state is cleared. -/
def UDPBulbClient.turn_off (self : UDPBulbClient)
    (freshId : String) (newFut : Nat) (outcome : WireOutcome) : BoolOpResult :=
  let r := self.send_command
    { command := "set_power", params := some (.power false) } freshId newFut outcome
  match r.result with
  | .ok resp =>
      { result := .ok resp.success,
        client := if resp.success then
            { r.client with last_status := { r.client.last_status with power := false } }
          else r.client,
        sent := r.sent }
  | .error e => { result := .error e, client := r.client, sent := r.sent }

/-- Shallow embedding of `UDPBulbClient.set_brightness`: values outside
`[0, 100]` raise a `ValueError` before anything is sent; otherwise one
`set_brightness` command, and on a success response the cached brightness is
updated. -/
def UDPBulbClient.set_brightness (self : UDPBulbClient) (brightness : Int)
    (freshId : String) (newFut : Nat) (outcome : WireOutcome) : BoolOpResult :=
  if 0 ≤ brightness ∧ brightness ≤ 100 then
    let r := self.send_command
      { command := "set_brightness", params := some (.brightness brightness) }
      freshId newFut outcome
    match r.result with
    | .ok resp =>
        { result := .ok resp.success,
          client := if resp.success then
              { r.client with
                  last_status := { r.client.last_status with brightness := brightness } }
            else r.client,
          sent := r.sent }
    | .error e => { result := .error e, client := r.client, sent := r.sent }
  else
    { result := .error (.valueError "Brightness must be between 0 and 100"),
      client := self, sent := [] }

/-- Shallow embedding of `UDPBulbClient.set_color_rgb`: channels outside
`[0, 255]` raise a `ValueError` before anything is sent; otherwise one
`set_color` command, and on a success response the cached color is updated. -/
def UDPBulbClient.set_color_rgb (self : UDPBulbClient) (r g b : Int)
    (freshId : String) (newFut : Nat) (outcome : WireOutcome) : BoolOpResult :=
  if (0 ≤ r ∧ r ≤ 255) ∧ (0 ≤ g ∧ g ≤ 255) ∧ (0 ≤ b ∧ b ≤ 255) then
    let res := self.send_command
      { command := "set_color", params := some (.color r g b) } freshId newFut outcome
    match res.result with
    | .ok resp =>
        { result := .ok resp.success,
          client := if resp.success then
              { res.client with
                  last_status := { res.client.last_status with color := (r, g, b) } }
            else res.client,
          sent := res.sent }
    | .error e => { result := .error e, client := res.client, sent := res.sent }
  else
    { result := .error (.valueError "RGB values must be between 0 and 255"),
      client := self, sent := [] }

/-- Value of one hexadecimal digit, as accepted by Python `int(_, 16)` on the
two-character slices of `set_color_hex` (only genuine hex digits arise from
the inputs the claims quantify over). -/
def hexDigitVal (c : Char) : Option Nat :=
  if '0' ≤ c ∧ c ≤ '9' then some (c.toNat - '0'.toNat)
  else if 'a' ≤ c ∧ c ≤ 'f' then some (c.toNat - 'a'.toNat + 10)
  else if 'A' ≤ c ∧ c ≤ 'F' then some (c.toNat - 'A'.toNat + 10)
  else none

/-- Python `int(s, 16)` on a two-character slice: `none` models the
`ValueError` raised on a non-hex digit. -/
def parseHexPair (c1 c2 : Char) : Option Nat :=
  match hexDigitVal c1, hexDigitVal c2 with
  | some h, some l => some (16 * h + l)
  | _, _ => none

/-- The decoding steps of `UDPBulbClient.set_color_hex`: strip every leading
`#` (Python `lstrip('#')`), require exactly six characters, parse the three
two-digit slices.  Errors carry the messages the source raises. -/
def decodeHexColor (s : String) : Except PyError (Nat × Nat × Nat) :=
  match s.toList.dropWhile (fun c => c = '#') with
  | [c1, c2, c3, c4, c5, c6] =>
      match parseHexPair c1 c2, parseHexPair c3 c4, parseHexPair c5 c6 with
      | some r, some g, some b => .ok (r, g, b)
      | _, _, _ => .error (.valueError "Invalid hex color format")
  | _ => .error (.valueError "Hex color must be 6 characters")

/-- Shallow embedding of `UDPBulbClient.set_color_hex`: decode the hex string
and delegate to `set_color_rgb`; the surrounding `except ValueError` rewraps a
`ValueError` raised inside the `try` as "Invalid hex color format". -/
def UDPBulbClient.set_color_hex (self : UDPBulbClient) (hex_color : String)
    (freshId : String) (newFut : Nat) (outcome : WireOutcome) : BoolOpResult :=
  match decodeHexColor hex_color with
  | .ok (r, g, b) =>
      let res := self.set_color_rgb (r : Int) (g : Int) (b : Int) freshId newFut outcome
      match res.result with
      | .error (.valueError _) =>
          { result := .error (.valueError "Invalid hex color format"),
            client := res.client, sent := res.sent }
      | _ => res
  | .error e => { result := .error e, client := self, sent := [] }

/-- Result of `get_status`: the snapshot copy returned, or the raised error. -/
structure StatusOpResult where
  result : Except PyError LastStatus
  client : UDPBulbClient
  sent : List Datagram

/-- Python `self.last_status.update(response.data)` restricted to the
recognized keys: each present field overwrites the cached one. -/
def LastStatus.updateWith (st : LastStatus) (d : StatusFields) : LastStatus :=
  { power := d.power.getD st.power,
    brightness := d.brightness.getD st.brightness,
    color := d.color.getD st.color,
    connected := d.connected.getD st.connected }

/-- Shallow embedding of `UDPBulbClient.get_status`: one `get_status` command;
on a success response with truthy data, merge the data into the snapshot and
mark it connected, otherwise mark it disconnected; return a copy. -/
def UDPBulbClient.get_status (self : UDPBulbClient)
    (freshId : String) (newFut : Nat) (outcome : WireOutcome) : StatusOpResult :=
  let r := self.send_command { command := "get_status" } freshId newFut outcome
  match r.result with
  | .ok resp =>
      let newLs :=
        match resp.data with
        | some d =>
            if resp.success ∧ d.truthy then
              { r.client.last_status.updateWith d with connected := true }
            else
              { r.client.last_status with connected := false }
        | none => { r.client.last_status with connected := false }
      { result := .ok newLs,
        client := { r.client with last_status := newLs },
        sent := r.sent }
  | .error e => { result := .error e, client := r.client, sent := r.sent }

/-- Information about a discovered bulb (`DiscoveredBulb`). -/
structure DiscoveredBulb where
  ip : String
  port : Nat
  mac_address : Option String := none
  model : Option String := none
  firmware_version : Option String := none
  response_time : Option Nat := none
  deriving DecidableEq, Repr

/-- State of the discovery engine (`BulbDiscovery`): the registry of live
clients keyed by `"ip:port"`. -/
structure BulbDiscovery where
  connected_bulbs : Dict UDPBulbClient
  deriving DecidableEq, Repr

/-- `BulbDiscovery._get_bulb_key`. -/
def bulbKey (ip : String) (port : Nat) : String := ip ++ ":" ++ toString port

/-- Shallow embedding of `BulbDiscovery._check_bulb_at_address`: probe one
candidate with a transient client (timeout a tenth of the discovery budget) by
connecting, fetching its status and closing; the candidate counts as a bulb
when the fetched status says `connected`.  The surrounding
`except Exception: pass` turns any raised `Exception` into `None`
(`.ok none`); a `CancelledError` is a `BaseException` and escapes. -/
def check_bulb_at_address (ip : String) (port : Nat) (timeout : Nat)
    (freshId1 freshId2 : String) (pingOutcome statusOutcome : WireOutcome) :
    Except PyError (Option DiscoveredBulb) :=
  let client := UDPBulbClient.init { ip := ip, port := port, timeout := timeout / 10 }
  let c := client.connect freshId1 0 pingOutcome
  match c.result with
  | .error .cancelledError => .error .cancelledError
  | .error _ => .ok none
  | .ok _ =>
      let s := c.client.get_status freshId2 1 statusOutcome
      match s.result with
      | .error .cancelledError => .error .cancelledError
      | .error _ => .ok none
      | .ok status =>
          if status.connected then
            .ok (some { ip := ip, port := port, response_time := some (timeout / 10) })
          else
            .ok none

/-- Python `s.split('.')` on a character list: split into the (possibly
empty) runs between dots. -/
def splitDotAux : List Char → List Char → List String
  | [], acc => [String.mk acc.reverse]
  | c :: rest, acc =>
      if c = '.' then String.mk acc.reverse :: splitDotAux rest []
      else splitDotAux rest (c :: acc)

/-- Python `local_ip.split('.')`. -/
def splitOnDots (s : String) : List String := splitDotAux s.toList []

/-- The network base computed by `discover_bulbs` from the local ip:
`'.'.join(ip_parts[:3]) + '.'`. -/
def networkBaseOf (localIp : String) : String :=
  String.intercalate "." ((splitOnDots localIp).take 3) ++ "."

/-- The candidate (ip, port) pairs generated by `discover_bulbs`: hosts
`1..254` of the /24 and every port of the inclusive range. -/
def candidateAddrs (networkBase : String) (portLo portHi : Nat) : List (String × Nat) :=
  (List.range' 1 254).flatMap fun host =>
    (List.range' portLo (portHi + 1 - portLo)).map fun port =>
      (networkBase ++ toString host, port)

/-- Per-candidate probe oracles for one discovery run: the two fresh ids and
the two wire outcomes `_check_bulb_at_address` consumes for a candidate. -/
structure ProbeEnv where
  freshId1 : String × Nat → String
  freshId2 : String × Nat → String
  pingOutcome : String × Nat → WireOutcome
  statusOutcome : String × Nat → WireOutcome

/-- The probe result for one candidate under a `ProbeEnv`. -/
def probeResult (env : ProbeEnv) (timeout : Nat) (a : String × Nat) :
    Except PyError (Option DiscoveredBulb) :=
  check_bulb_at_address a.1 a.2 timeout (env.freshId1 a) (env.freshId2 a)
    (env.pingOutcome a) (env.statusOutcome a)

/-- The contribution of one candidate's probe to the discovery result: the
filter `isinstance(result, DiscoveredBulb)` keeps a found bulb and drops both
`None` results and collected exceptions. -/
def discoveredOf (env : ProbeEnv) (timeout : Nat) (a : String × Nat) :
    Option DiscoveredBulb :=
  match probeResult env timeout a with
  | .ok (some d) => some d
  | _ => none

/-- Shallow embedding of `BulbDiscovery.discover_bulbs`: when no local ip can
be determined, return the empty list; otherwise probe every candidate of the
/24 (all outcomes collected by `asyncio.gather(..., return_exceptions=True)`,
so a raised exception becomes a result value) and keep exactly the results
that are `DiscoveredBulb` instances. -/
def discover_bulbs (localIp : Option String) (timeout : Nat)
    (portLo portHi : Nat) (env : ProbeEnv) : List DiscoveredBulb :=
  match localIp with
  | none => []
  | some lip =>
      (candidateAddrs (networkBaseOf lip) portLo portHi).filterMap
        (discoveredOf env timeout)

/-- Result of `connect_to_bulb`: the returned client or raised error, the
discovery state afterwards, how many underlying `connect` calls ran, and the
datagrams sent. -/
structure ConnectToBulbResult where
  result : Except PyError UDPBulbClient
  discovery : BulbDiscovery
  connectsPerformed : Nat
  sent : List Datagram

/-- Shallow embedding of `BulbDiscovery.connect_to_bulb`: a registry hit is
returned unchanged with no new connection; otherwise a fresh client (default
timeout) is connected and registered, and a raised connect failure propagates
without touching the registry. -/
def BulbDiscovery.connect_to_bulb (self : BulbDiscovery) (ip : String) (port : Nat)
    (freshId : String) (newFut : Nat) (probeOutcome : WireOutcome) : ConnectToBulbResult :=
  let key := bulbKey ip port
  match dictLookup self.connected_bulbs key with
  | some client =>
      { result := .ok client, discovery := self, connectsPerformed := 0, sent := [] }
  | none =>
      let client := UDPBulbClient.init { ip := ip, port := port, timeout := 5 }
      let c := client.connect freshId newFut probeOutcome
      match c.result with
      | .ok _ =>
          { result := .ok c.client,
            discovery := { connected_bulbs := dictInsert self.connected_bulbs key c.client },
            connectsPerformed := 1, sent := c.sent }
      | .error e =>
          { result := .error e, discovery := self, connectsPerformed := 1, sent := c.sent }

/-- Shallow embedding of `BulbDiscovery.close_all_connections`: close every
registered client in turn — `closeRaises` tells which close calls raise; a
raised `Exception` is caught and logged, and the loop continues — then clear
the registry.  Returned alongside the final state: the keys whose close was
attempted, in order, and the keys whose close raised. -/
def BulbDiscovery.close_all_connections (self : BulbDiscovery)
    (closeRaises : String → Bool) : BulbDiscovery × List String × List String :=
  let t := self.connected_bulbs.foldl
    (fun (acc : List String × List String) kv =>
      (acc.1 ++ [kv.1], if closeRaises kv.1 then acc.2 ++ [kv.1] else acc.2))
    ([], [])
  ({ connected_bulbs := [] }, t)

/-- Hexadecimal digit character for a value below 16 (lowercase). -/
def toHexDigit (n : Nat) : Char :=
  if n < 10 then Char.ofNat ('0'.toNat + n) else Char.ofNat ('a'.toNat + (n - 10))

/-- Modelled from the spec: "the 6-hex-digit string that encodes" an RGB
triple, two hex digits per channel.  The repository contains no encoder; this
is the comparison definition for the round-trip property. -/
def encodeHexColor (r g b : Nat) : String :=
  String.mk [toHexDigit (r / 16), toHexDigit (r % 16),
             toHexDigit (g / 16), toHexDigit (g % 16),
             toHexDigit (b / 16), toHexDigit (b % 16)]

/-- Concrete configuration used to evaluate the model on explicit inputs. -/
def bulbCfg : BulbConfig := { ip := "192.168.1.45", port := 4000, timeout := 5 }

/-- Freshly constructed client: `UDPBulbClient(BulbConfig(...))`, no connect. -/
def freshClient : UDPBulbClient := UDPBulbClient.init bulbCfg

/-- Connected client with an empty pending table. -/
def liveClient : UDPBulbClient :=
  { freshClient with socketOpen := true, running := true }

/-- Connected client that already has correlation id "abc" in flight. -/
def busyClient : UDPBulbClient :=
  { liveClient with pending_commands := [("abc", 7)] }

/-- Command carrying an explicit correlation id that collides with the one
pending on `busyClient`. -/
def collidingCmd : BulbCommand :=
  { command := "set_power", params := some (.power true), id := some "abc" }

/-- Probe oracles under which every candidate responds: the ping is answered
and the status fetch returns a success reply whose data marks the device
connected. -/
def allRespondEnv : ProbeEnv :=
  { freshId1 := fun _ => "p1", freshId2 := fun _ => "p2",
    pingOutcome := fun _ => .delivered { success := true },
    statusOutcome := fun _ =>
      .delivered { success := true, data := some { connected := some true } } }

/-! Helper lemmas about the dictionary model and list combinators. -/

theorem dictLookup_eq_none_of_not_mem {α : Type} (d : Dict α) (k : String)
    (h : k ∉ d.map Prod.fst) : dictLookup d k = none := by
  induction d with
  | nil => rfl
  | cons kv rest ih =>
      obtain ⟨k', v'⟩ := kv
      simp only [List.map_cons, List.mem_cons, not_or] at h
      have hne : ¬ k' = k := fun e => h.1 (Eq.symm e)
      simp only [dictLookup, if_neg hne]
      exact ih h.2

theorem dictLookup_erase_insert {α : Type} (d : Dict α) (k : String) (v : α)
    (h : dictWF d) : dictLookup (dictErase (dictInsert d k v) k) k = none := by
  induction d with
  | nil => simp [dictInsert, dictErase, dictLookup]
  | cons kv rest ih =>
      obtain ⟨k', v'⟩ := kv
      unfold dictWF at h
      simp only [List.map_cons, List.nodup_cons] at h
      by_cases hk : k' = k
      · subst hk
        simp only [dictInsert, if_pos rfl, dictErase, if_pos rfl]
        exact dictLookup_eq_none_of_not_mem rest k' h.1
      · simp only [dictInsert, if_neg hk, dictErase, if_neg hk, dictLookup, if_neg hk]
        exact ih h.2

theorem length_filterMap_eq_countP {α β : Type} (f : α → Option β) (l : List α) :
    (l.filterMap f).length = l.countP (fun a => (f a).isSome) := by
  induction l with
  | nil => rfl
  | cons a l ih =>
      cases h : f a <;>
        simp [List.filterMap_cons, h, List.countP_cons, ih]

theorem close_all_foldl (l : List (String × UDPBulbClient)) (p : String → Bool)
    (xs ys : List String) :
    l.foldl
        (fun (acc : List String × List String) kv =>
          (acc.1 ++ [kv.1], if p kv.1 then acc.2 ++ [kv.1] else acc.2))
        (xs, ys) =
      (xs ++ l.map Prod.fst, ys ++ (l.map Prod.fst).filter p) := by
  induction l generalizing xs ys with
  | nil => simp
  | cons kv rest ih =>
      obtain ⟨k', v'⟩ := kv
      by_cases hp : p k' <;>
        simp [List.foldl_cons, ih, hp, List.filter_cons]

/-! Helper lemmas about the hex color codec. -/

theorem hexDigitVal_toHexDigit : ∀ d : Nat, d < 16 → hexDigitVal (toHexDigit d) = some d := by
  decide

theorem toHexDigit_ne_hash : ∀ d : Nat, d < 16 → ¬ toHexDigit d = '#' := by
  decide

theorem parseHexPair_toHexDigit (n : Nat) (h : n < 256) :
    parseHexPair (toHexDigit (n / 16)) (toHexDigit (n % 16)) = some n := by
  have h1 : n / 16 < 16 := Nat.div_lt_of_lt_mul (by omega)
  have h2 : n % 16 < 16 := Nat.mod_lt _ (by omega)
  simp only [parseHexPair, hexDigitVal_toHexDigit _ h1, hexDigitVal_toHexDigit _ h2]
  congr 1
  omega

theorem decodeHexColor_encode (r g b : Nat) (hr : r < 256) (hg : g < 256) (hb : b < 256) :
    decodeHexColor (encodeHexColor r g b) = .ok (r, g, b) := by
  have h1 : r / 16 < 16 := Nat.div_lt_of_lt_mul (by omega)
  have hne := toHexDigit_ne_hash _ h1
  simp [decodeHexColor, encodeHexColor, String.toList, List.dropWhile, hne,
        parseHexPair_toHexDigit r hr, parseHexPair_toHexDigit g hg,
        parseHexPair_toHexDigit b hb]

theorem decodeHexColor_hash (s : String) :
    decodeHexColor ("#" ++ s) = decodeHexColor s := by
  have hdata : ("#" ++ s).data = '#' :: s.data := by
    simp [String.data_append]
  simp [decodeHexColor, String.toList, hdata, List.dropWhile]

theorem dictLookup_insert_self {α : Type} (d : Dict α) (k : String) (v : α) :
    dictLookup (dictInsert d k v) k = some v := by
  induction d with
  | nil => simp [dictInsert, dictLookup]
  | cons kv rest ih =>
      obtain ⟨k', v'⟩ := kv
      by_cases hk : k' = k
      · simp [dictInsert, if_pos hk, dictLookup]
      · simp [dictInsert, if_neg hk, dictLookup, if_neg hk, ih]

theorem send_command_error_cases (self : UDPBulbClient) (cmd : BulbCommand)
    (fid : String) (fut : Nat) (o : WireOutcome) (e : PyError)
    (h : (self.send_command cmd fid fut o).result = .error e) :
    e = .connectionError "Not connected to bulb" ∨ e = PyError.cancelledError := by
  unfold UDPBulbClient.send_command at h
  by_cases hc : self.socketOpen = true ∧ self.running = true
  · rw [if_pos hc] at h
    cases o <;> simp_all
  · rw [if_neg hc] at h
    simp_all

theorem send_command_last_status (self : UDPBulbClient) (cmd : BulbCommand)
    (fid : String) (fut : Nat) (o : WireOutcome) :
    (self.send_command cmd fid fut o).client.last_status = self.last_status := by
  unfold UDPBulbClient.send_command
  by_cases hc : self.socketOpen = true ∧ self.running = true
  · rw [if_pos hc]; cases o <;> rfl
  · rw [if_neg hc]

/-!
Claim theorems.
-/

/-- C1 counterexample: on a connected client whose pending table already holds
correlation id "abc" (future 7), a command carrying the explicit id "abc" is
not rejected: a datagram is transmitted, the pending entry is overwritten with
the new future 8, and after the call (here: a timeout) the entry is gone
entirely rather than left intact. -/
theorem C1_counterexample :
    (busyClient.send_command collidingCmd "zzz" 8 .timeout).sent =
      [{ command := "set_power", id := "abc", params := some (.power true) }] ∧
    (busyClient.send_command collidingCmd "zzz" 8 .timeout).registered = [("abc", 8)] ∧
    (busyClient.send_command collidingCmd "zzz" 8 .timeout).client.pending_commands = [] ∧
    (busyClient.send_command collidingCmd "zzz" 8 .timeout).result =
      .ok { success := false, error := some "Command timeout", id := some "abc" } :=
  ⟨rfl, rfl, rfl, rfl⟩

/-- C1 (amended): `send_command` on a connected client performs no
duplicate-id check.  A command with an explicit non-empty id is sent under
that id and its new future is registered at that id, overwriting any existing
pending entry; a command with no id is registered under the freshly generated
id. -/
theorem C1_send_command_id_assignment (self : UDPBulbClient) (cmd : BulbCommand)
    (c fid : String) (fut : Nat) (o : WireOutcome)
    (hopen : self.socketOpen = true) (hrun : self.running = true)
    (hid : cmd.id = some c) (hc : ¬ c = "") :
    (self.send_command cmd fid fut o).registered =
      dictInsert self.pending_commands c fut ∧
    dictLookup (self.send_command cmd fid fut o).registered c = some fut ∧
    ((∀ m, ¬ o = WireOutcome.sendFailure m) →
       (self.send_command cmd fid fut o).sent =
         [{ command := cmd.command, id := c, params := cmd.params }]) ∧
    (∀ cmd2 : BulbCommand, cmd2.id = none →
       (self.send_command cmd2 fid fut o).registered =
         dictInsert self.pending_commands fid fut) := by
  have hreg : ∀ cmd2 : BulbCommand, ∀ c2 : String,
      (match cmd2.id with
        | none => fid
        | some s => if s = "" then fid else s) = c2 →
      (self.send_command cmd2 fid fut o).registered =
        dictInsert self.pending_commands c2 fut ∧
      (self.send_command cmd2 fid fut o).sent =
        (match o with
          | .sendFailure _ => []
          | _ => [{ command := cmd2.command, id := c2, params := cmd2.params }]) := by
    intro cmd2 c2 hcid
    unfold UDPBulbClient.send_command
    rw [if_pos ⟨hopen, hrun⟩]
    rw [hcid]
    cases o <;> exact ⟨rfl, rfl⟩
  have hcid : (match cmd.id with
        | none => fid
        | some s => if s = "" then fid else s) = c := by
    rw [hid]; simp [if_neg hc]
  refine ⟨(hreg cmd c hcid).1, ?_, ?_, ?_⟩
  · rw [(hreg cmd c hcid).1]
    exact dictLookup_insert_self _ _ _
  · intro hno
    rw [(hreg cmd c hcid).2]
    cases o with
    | sendFailure m => exact absurd rfl (hno m)
    | delivered resp => rfl
    | timeout => rfl
    | cancelled => rfl
  · intro cmd2 h2
    exact (hreg cmd2 fid (by rw [h2])).1

/-- C1 witness: the amended theorem evaluated on `busyClient` with the
colliding command. -/
theorem C1_witness :
    dictLookup (busyClient.send_command collidingCmd "zzz" 8 .timeout).registered "abc" =
      some 8 ∧
    (busyClient.send_command collidingCmd "zzz" 8 .timeout).registered =
      dictInsert busyClient.pending_commands "abc" 8 :=
  ⟨(C1_send_command_id_assignment busyClient collidingCmd "abc" "zzz" 8 .timeout
      rfl rfl rfl (by decide)).2.1,
   (C1_send_command_id_assignment busyClient collidingCmd "abc" "zzz" 8 .timeout
      rfl rfl rfl (by decide)).1⟩

/-- C2 (code-bug evidence): connecting a fresh client while its single ping
probe times out still returns normally, leaves the client running with an open
socket, and marks the cached snapshot connected; exactly one `ping` datagram
is transmitted.  The probe's failure response is discarded by `connect`. -/
theorem C2_connect_ignores_probe_failure :
    (freshClient.connect "p1" 0 .timeout).result = .ok () ∧
    (freshClient.connect "p1" 0 .timeout).client.running = true ∧
    (freshClient.connect "p1" 0 .timeout).client.socketOpen = true ∧
    (freshClient.connect "p1" 0 .timeout).client.last_status.connected = true ∧
    (freshClient.connect "p1" 0 .timeout).sent =
      [{ command := "ping", id := "p1", params := none }] :=
  ⟨rfl, rfl, rfl, rfl, rfl⟩

/-- C4 counterexample: a device-level call on a client that never connected
raises a `ConnectionError` (it does not return a failure result), although the
condition is detected before any datagram is sent. -/
theorem C4_counterexample :
    (freshClient.send_command { command := "get_status" } "f1" 0 .timeout).result =
      .error (.connectionError "Not connected to bulb") ∧
    (freshClient.send_command { command := "get_status" } "f1" 0 .timeout).sent = [] :=
  ⟨rfl, rfl⟩

/-- C4 (amended): on a client that is not Connected (socket absent or not
running), the NotConnected condition is detected synchronously before any
network I/O and surfaces as a raised `ConnectionError` — not as a returned
failure result — for `send_command` and for every device-level operation
delegating to it. -/
theorem C4_not_connected_raises (self : UDPBulbClient) (cmd : BulbCommand)
    (fid : String) (fut : Nat) (o : WireOutcome)
    (h : ¬ (self.socketOpen = true ∧ self.running = true)) :
    (self.send_command cmd fid fut o).result =
      .error (.connectionError "Not connected to bulb") ∧
    (self.send_command cmd fid fut o).sent = [] ∧
    (self.send_command cmd fid fut o).client = self ∧
    (self.turn_on fid fut o).result = .error (.connectionError "Not connected to bulb") ∧
    (self.ping fid fut o).result = .error (.connectionError "Not connected to bulb") ∧
    (self.get_status fid fut o).result = .error (.connectionError "Not connected to bulb") := by
  have hsc : ∀ c : BulbCommand, self.send_command c fid fut o =
      { result := .error (.connectionError "Not connected to bulb"),
        client := self, sent := [], registered := self.pending_commands } := by
    intro c
    unfold UDPBulbClient.send_command
    rw [if_neg h]
  refine ⟨?_, ?_, ?_, ?_, ?_, ?_⟩ <;>
    simp [hsc, UDPBulbClient.turn_on, UDPBulbClient.ping, UDPBulbClient.get_status]

/-- C4 witness: the amended theorem evaluated on the fresh (never connected)
client. -/
theorem C4_witness :
    (freshClient.turn_on "f1" 0 .timeout).result =
      .error (.connectionError "Not connected to bulb") :=
  (C4_not_connected_raises freshClient { command := "set_power" } "f1" 0 .timeout
      (by decide)).2.2.2.1

/-- C5 counterexample: `set_brightness 101` on a connected, responsive client
raises a `ValueError` — it does not return a failure result — though no
datagram is sent. -/
theorem C5_counterexample :
    (liveClient.set_brightness 101 "f1" 0 (.delivered { success := true })).result =
      .error (.valueError "Brightness must be between 0 and 100") ∧
    (liveClient.set_brightness 101 "f1" 0 (.delivered { success := true })).sent = [] :=
  ⟨rfl, rfl⟩

/-- C5 (amended): for b in [0,100], `set_brightness b` on a connected client
whose reply is a success response updates the cached brightness to b and
returns `True`; for b outside [0,100] it raises a `ValueError` before sending
any datagram (rather than returning a failure result), leaving the client
unchanged. -/
theorem C5_set_brightness_behaviour (self : UDPBulbClient) (b : Int)
    (fid : String) (fut : Nat)
    (hopen : self.socketOpen = true) (hrun : self.running = true) :
    (∀ resp : BulbResponse, 0 ≤ b → b ≤ 100 → resp.success = true →
       (self.set_brightness b fid fut (.delivered resp)).result = .ok true ∧
       (self.set_brightness b fid fut (.delivered resp)).client.last_status.brightness = b) ∧
    (¬ (0 ≤ b ∧ b ≤ 100) → ∀ o : WireOutcome,
       (self.set_brightness b fid fut o).result =
         .error (.valueError "Brightness must be between 0 and 100") ∧
       (self.set_brightness b fid fut o).sent = [] ∧
       (self.set_brightness b fid fut o).client = self) := by
  constructor
  · intro resp h0 h1 hs
    unfold UDPBulbClient.set_brightness
    rw [if_pos ⟨h0, h1⟩]
    unfold UDPBulbClient.send_command
    rw [if_pos ⟨hopen, hrun⟩]
    simp [hs]
  · intro hout o
    unfold UDPBulbClient.set_brightness
    rw [if_neg hout]
    exact ⟨rfl, rfl, rfl⟩

/-- C5 witness: the amended theorem evaluated at brightness 50 (valid,
success reply) and 101 (invalid). -/
theorem C5_witness :
    (liveClient.set_brightness 50 "f1" 0 (.delivered { success := true })).result = .ok true ∧
    (liveClient.set_brightness 50 "f1" 0
        (.delivered { success := true })).client.last_status.brightness = 50 ∧
    (liveClient.set_brightness 101 "f1" 0 .timeout).result =
      .error (.valueError "Brightness must be between 0 and 100") ∧
    (liveClient.set_brightness 101 "f1" 0 .timeout).sent = [] :=
  ⟨((C5_set_brightness_behaviour liveClient 50 "f1" 0 rfl rfl).1
      { success := true } (by decide) (by decide) rfl).1,
   ((C5_set_brightness_behaviour liveClient 50 "f1" 0 rfl rfl).1
      { success := true } (by decide) (by decide) rfl).2,
   ((C5_set_brightness_behaviour liveClient 101 "f1" 0 rfl rfl).2 (by decide) .timeout).1,
   ((C5_set_brightness_behaviour liveClient 101 "f1" 0 rfl rfl).2 (by decide) .timeout).2.1⟩

/-- C3: a command on a connected client whose reply never arrives resolves to
a failure response carrying the same correlation id and the "Command timeout"
indicator; afterwards the id is absent from the pending table, and it is
absent after every resolution path (delivery, timeout, send failure,
cancellation); closing the client empties the table. -/
theorem C3_timeout_resolution (self : UDPBulbClient) (cmd : BulbCommand) (c fid : String)
    (fut : Nat)
    (hopen : self.socketOpen = true) (hrun : self.running = true)
    (hwf : dictWF self.pending_commands)
    (hcid : (match cmd.id with
              | none => fid
              | some s => if s = "" then fid else s) = c) :
    (self.send_command cmd fid fut .timeout).result =
      .ok { success := false, data := none, error := some "Command timeout", id := some c } ∧
    (∀ o : WireOutcome,
       dictLookup ((self.send_command cmd fid fut o).client.pending_commands) c = none) ∧
    (self.close).pending_commands = [] := by
  have hpend : ∀ o : WireOutcome,
      (self.send_command cmd fid fut o).client.pending_commands =
        dictErase (dictInsert self.pending_commands c fut) c := by
    intro o
    unfold UDPBulbClient.send_command
    rw [if_pos ⟨hopen, hrun⟩, hcid]
    cases o <;> rfl
  refine ⟨?_, ?_, rfl⟩
  · unfold UDPBulbClient.send_command
    rw [if_pos ⟨hopen, hrun⟩, hcid]
  · intro o
    rw [hpend o]
    exact dictLookup_erase_insert _ _ _ hwf

/-- C3 witness: the theorem evaluated on `busyClient` with the in-flight id
"abc", for the timeout and the cancellation path. -/
theorem C3_witness :
    (busyClient.send_command collidingCmd "zzz" 8 .timeout).result =
      .ok { success := false, data := none, error := some "Command timeout", id := some "abc" } ∧
    dictLookup ((busyClient.send_command collidingCmd "zzz" 8 .timeout).client.pending_commands)
      "abc" = none ∧
    dictLookup ((busyClient.send_command collidingCmd "zzz" 8 .cancelled).client.pending_commands)
      "abc" = none :=
  ⟨(C3_timeout_resolution busyClient collidingCmd "abc" "zzz" 8 rfl rfl
      (by unfold dictWF; decide) (by decide)).1,
   (C3_timeout_resolution busyClient collidingCmd "abc" "zzz" 8 rfl rfl
      (by unfold dictWF; decide) (by decide)).2.1 .timeout,
   (C3_timeout_resolution busyClient collidingCmd "abc" "zzz" 8 rfl rfl
      (by unfold dictWF; decide) (by decide)).2.1 .cancelled⟩

theorem set_color_rgb_no_valueError (self : UDPBulbClient) (r g b : Int)
    (h : (0 ≤ r ∧ r ≤ 255) ∧ (0 ≤ g ∧ g ≤ 255) ∧ (0 ≤ b ∧ b ≤ 255))
    (fid : String) (fut : Nat) (o : WireOutcome) (m : String) :
    ¬ (self.set_color_rgb r g b fid fut o).result = .error (.valueError m) := by
  intro hcontra
  unfold UDPBulbClient.set_color_rgb UDPBulbClient.send_command at hcontra
  rw [if_pos h] at hcontra
  by_cases hc2 : self.socketOpen = true ∧ self.running = true
  · rw [if_pos hc2] at hcontra
    cases o <;> simp_all
  · rw [if_neg hc2] at hcontra
    simp_all

/-- C6: decoding the six-hex-digit encoding of an RGB triple (with or without
a leading '#') recovers exactly that triple, and the hex path of `setColor`
behaves identically to the component-RGB path on the decoded triple (same
`set_color` datagram, same result, same state). -/
theorem C6_hex_color_roundtrip (r g b : Nat) (hr : r < 256) (hg : g < 256) (hb : b < 256) :
    decodeHexColor (encodeHexColor r g b) = .ok (r, g, b) ∧
    decodeHexColor ("#" ++ encodeHexColor r g b) = .ok (r, g, b) ∧
    ∀ (self : UDPBulbClient) (fid : String) (fut : Nat) (o : WireOutcome),
      self.set_color_hex (encodeHexColor r g b) fid fut o =
        self.set_color_rgb (r : Int) (g : Int) (b : Int) fid fut o := by
  have hdec := decodeHexColor_encode r g b hr hg hb
  refine ⟨hdec, by rw [decodeHexColor_hash]; exact hdec, ?_⟩
  intro self fid fut o
  have hvalid : (0 ≤ (r : Int) ∧ (r : Int) ≤ 255) ∧ (0 ≤ (g : Int) ∧ (g : Int) ≤ 255) ∧
      (0 ≤ (b : Int) ∧ (b : Int) ≤ 255) := by
    refine ⟨⟨?_, ?_⟩, ⟨?_, ?_⟩, ⟨?_, ?_⟩⟩ <;> omega
  unfold UDPBulbClient.set_color_hex
  rw [hdec]
  cases hres : (self.set_color_rgb (r : Int) (g : Int) (b : Int) fid fut o).result with
  | ok v => simp [hres]
  | error e =>
      cases e with
      | valueError m =>
          exact absurd hres (set_color_rgb_no_valueError self _ _ _ hvalid fid fut o m)
      | connectionError m => simp [hres]
      | cancelledError => simp [hres]

/-- C6 witness: the round trip and the path agreement evaluated at the triple
(255, 0, 160), i.e. the hex string "ff00a0". -/
theorem C6_witness :
    decodeHexColor (encodeHexColor 255 0 160) = .ok (255, 0, 160) ∧
    decodeHexColor ("#" ++ encodeHexColor 255 0 160) = .ok (255, 0, 160) ∧
    liveClient.set_color_hex (encodeHexColor 255 0 160) "f1" 0
        (.delivered { success := true }) =
      liveClient.set_color_rgb 255 0 160 "f1" 0 (.delivered { success := true }) :=
  ⟨(C6_hex_color_roundtrip 255 0 160 (by decide) (by decide) (by decide)).1,
   (C6_hex_color_roundtrip 255 0 160 (by decide) (by decide) (by decide)).2.1,
   (C6_hex_color_roundtrip 255 0 160 (by decide) (by decide) (by decide)).2.2
      liveClient "f1" 0 (.delivered { success := true })⟩

/-- C7: `connect_to_bulb` is idempotent on registry hits — the registered
client is returned unchanged, the registry is untouched and no underlying
connect runs — and on a registry miss whose connect raises, the failure
propagates and the registry is left unchanged (no half-open entry). -/
theorem C7_connect_to_bulb_idempotent (st : BulbDiscovery) (ip : String) (port : Nat)
    (fid : String) (fut : Nat) (o : WireOutcome) :
    (∀ cl, dictLookup st.connected_bulbs (bulbKey ip port) = some cl →
       st.connect_to_bulb ip port fid fut o =
         { result := .ok cl, discovery := st, connectsPerformed := 0, sent := [] }) ∧
    (dictLookup st.connected_bulbs (bulbKey ip port) = none →
       ∀ e, (st.connect_to_bulb ip port fid fut o).result = .error e →
         (st.connect_to_bulb ip port fid fut o).discovery = st ∧
         (st.connect_to_bulb ip port fid fut o).connectsPerformed = 1) := by
  constructor
  · intro cl hl
    simp only [BulbDiscovery.connect_to_bulb]
    rw [hl]
  · intro hl e hres
    simp only [BulbDiscovery.connect_to_bulb] at hres ⊢
    rw [hl] at hres ⊢
    cases hcr : (UDPBulbClient.init { ip := ip, port := port, timeout := 5 }).connect fid fut o with
    | mk res cl sent =>
        cases res with
        | ok u => rw [hcr] at hres; simp at hres
        | error e2 => exact ⟨rfl, rfl⟩

/-- C7 witness: the theorem evaluated on a registry holding `liveClient` under
key "192.168.1.45:4000" (hit path), and on the empty registry with a
cancelled connect (failing-connect path). -/
theorem C7_witness :
    BulbDiscovery.connect_to_bulb { connected_bulbs := [("192.168.1.45:4000", liveClient)] }
        "192.168.1.45" 4000 "f1" 0 .timeout =
      { result := .ok liveClient,
        discovery := { connected_bulbs := [("192.168.1.45:4000", liveClient)] },
        connectsPerformed := 0, sent := [] } ∧
    (BulbDiscovery.connect_to_bulb { connected_bulbs := [] }
        "192.168.1.45" 4000 "f1" 0 .cancelled).discovery =
      { connected_bulbs := [] } :=
  ⟨(C7_connect_to_bulb_idempotent { connected_bulbs := [("192.168.1.45:4000", liveClient)] }
      "192.168.1.45" 4000 "f1" 0 .timeout).1 liveClient (by decide),
   ((C7_connect_to_bulb_idempotent { connected_bulbs := [] }
      "192.168.1.45" 4000 "f1" 0 .cancelled).2 (by decide) .cancelledError rfl).1⟩

theorem check_found_addr (ip : String) (port timeout : Nat) (f1 f2 : String)
    (po so : WireOutcome) (d : DiscoveredBulb)
    (h : check_bulb_at_address ip port timeout f1 f2 po so = .ok (some d)) :
    d.ip = ip ∧ d.port = port := by
  simp only [check_bulb_at_address] at h
  cases hcres : ((UDPBulbClient.init { ip := ip, port := port, timeout := timeout / 10 }).connect
      f1 0 po).result with
  | error ce =>
      rw [hcres] at h
      cases ce <;> simp at h
  | ok u =>
      rw [hcres] at h
      cases hsres : (((UDPBulbClient.init
          { ip := ip, port := port, timeout := timeout / 10 }).connect
            f1 0 po).client.get_status f2 1 so).result with
      | error se =>
          rw [hsres] at h
          cases se <;> simp at h
      | ok status =>
          rw [hsres] at h
          by_cases hcon : status.connected = true
          · simp only [if_pos hcon] at h
            simp at h
            subst h
            exact ⟨rfl, rfl⟩
          · simp only [if_neg hcon] at h
            simp at h

/-- C8: `discover_bulbs` returns exactly one discovered record per candidate
whose probe found a bulb — per-candidate failures, collected exceptions
included, contribute nothing and never abort the scan (the operation is
total) — and every returned record is the found-probe result of its own
address. -/
theorem C8_discover_collects_exactly_found (lip : String) (timeout portLo portHi : Nat)
    (env : ProbeEnv) :
    (discover_bulbs (some lip) timeout portLo portHi env).length =
      (candidateAddrs (networkBaseOf lip) portLo portHi).countP
        (fun a => (discoveredOf env timeout a).isSome) ∧
    ∀ d : DiscoveredBulb, d ∈ discover_bulbs (some lip) timeout portLo portHi env →
      probeResult env timeout (d.ip, d.port) = .ok (some d) := by
  constructor
  · simp only [discover_bulbs]
    exact length_filterMap_eq_countP _ _
  · intro d hd
    simp only [discover_bulbs] at hd
    rw [List.mem_filterMap] at hd
    obtain ⟨a, ha, hfa⟩ := hd
    obtain ⟨a1, a2⟩ := a
    have hp : probeResult env timeout (a1, a2) = .ok (some d) := by
      unfold discoveredOf at hfa
      cases hpa : probeResult env timeout (a1, a2) with
      | ok v =>
          cases v with
          | none => rw [hpa] at hfa; simp at hfa
          | some d2 =>
              rw [hpa] at hfa
              simp at hfa
              rw [hfa]
      | error e => rw [hpa] at hfa; simp at hfa
    have haddr : d.ip = a1 ∧ d.port = a2 :=
      check_found_addr a1 a2 timeout (env.freshId1 (a1, a2)) (env.freshId2 (a1, a2))
        (env.pingOutcome (a1, a2)) (env.statusOutcome (a1, a2)) d hp
    rw [haddr.1, haddr.2]
    exact hp

/-- C8 witness: under `allRespondEnv` (every candidate reachable) over the
network of "10.0.0.1" with port range [4000, 4000], the record discovered for
the first candidate is its own probe result. -/
theorem C8_witness :
    probeResult allRespondEnv 5 ("10.0.0.1", 4000) =
      .ok (some { ip := "10.0.0.1", port := 4000, response_time := some 0 }) :=
  (C8_discover_collects_exactly_found "10.0.0.1" 5 4000 4000 allRespondEnv).2
    { ip := "10.0.0.1", port := 4000, response_time := some 0 } (by decide)

/-- C9: `close_all_connections` attempts a close on every registered client in
order, reports exactly the keys whose close raised, and ends with an empty
registry regardless of those failures; no exception propagates (the operation
is total). -/
theorem C9_close_all_best_effort (st : BulbDiscovery) (closeRaises : String → Bool) :
    (st.close_all_connections closeRaises).1.connected_bulbs = [] ∧
    (st.close_all_connections closeRaises).2.1 = st.connected_bulbs.map Prod.fst ∧
    (st.close_all_connections closeRaises).2.2 =
      (st.connected_bulbs.map Prod.fst).filter closeRaises := by
  unfold BulbDiscovery.close_all_connections
  rw [close_all_foldl]
  exact ⟨rfl, by simp, by simp⟩

/-- C10: for each mutating device operation (turn_on, turn_off,
set_brightness, set_color_rgb), whenever the call does not return success the
entire cached snapshot is left unchanged — the cache is written only on a
success response. -/
theorem C10_cache_unchanged_unless_success (self : UDPBulbClient)
    (fid : String) (fut : Nat) (o : WireOutcome) (b r g bl : Int) :
    ((self.turn_on fid fut o).result ≠ .ok true →
       (self.turn_on fid fut o).client.last_status = self.last_status) ∧
    ((self.turn_off fid fut o).result ≠ .ok true →
       (self.turn_off fid fut o).client.last_status = self.last_status) ∧
    ((self.set_brightness b fid fut o).result ≠ .ok true →
       (self.set_brightness b fid fut o).client.last_status = self.last_status) ∧
    ((self.set_color_rgb r g bl fid fut o).result ≠ .ok true →
       (self.set_color_rgb r g bl fid fut o).client.last_status = self.last_status) := by
  refine ⟨?_, ?_, ?_, ?_⟩
  · intro hne
    unfold UDPBulbClient.turn_on UDPBulbClient.send_command at hne ⊢
    by_cases hc : self.socketOpen = true ∧ self.running = true
    · rw [if_pos hc] at hne ⊢
      cases o with
      | delivered resp => cases hsucc : resp.success <;> simp_all
      | timeout => simp_all
      | sendFailure m => simp_all
      | cancelled => simp_all
    · rw [if_neg hc] at hne ⊢
  · intro hne
    unfold UDPBulbClient.turn_off UDPBulbClient.send_command at hne ⊢
    by_cases hc : self.socketOpen = true ∧ self.running = true
    · rw [if_pos hc] at hne ⊢
      cases o with
      | delivered resp => cases hsucc : resp.success <;> simp_all
      | timeout => simp_all
      | sendFailure m => simp_all
      | cancelled => simp_all
    · rw [if_neg hc] at hne ⊢
  · intro hne
    unfold UDPBulbClient.set_brightness UDPBulbClient.send_command at hne ⊢
    by_cases hv : 0 ≤ b ∧ b ≤ 100
    · rw [if_pos hv] at hne ⊢
      by_cases hc : self.socketOpen = true ∧ self.running = true
      · rw [if_pos hc] at hne ⊢
        cases o with
        | delivered resp => cases hsucc : resp.success <;> simp_all
        | timeout => simp_all
        | sendFailure m => simp_all
        | cancelled => simp_all
      · rw [if_neg hc] at hne ⊢
    · rw [if_neg hv] at hne ⊢
  · intro hne
    unfold UDPBulbClient.set_color_rgb UDPBulbClient.send_command at hne ⊢
    by_cases hv : (0 ≤ r ∧ r ≤ 255) ∧ (0 ≤ g ∧ g ≤ 255) ∧ (0 ≤ bl ∧ bl ≤ 255)
    · rw [if_pos hv] at hne ⊢
      by_cases hc : self.socketOpen = true ∧ self.running = true
      · rw [if_pos hc] at hne ⊢
        cases o with
        | delivered resp => cases hsucc : resp.success <;> simp_all
        | timeout => simp_all
        | sendFailure m => simp_all
        | cancelled => simp_all
      · rw [if_neg hc] at hne ⊢
    · rw [if_neg hv] at hne ⊢

/-- C10 witness: the theorem evaluated on `liveClient` with a timed-out
operation for each of the four mutating operations. -/
theorem C10_witness :
    (liveClient.turn_on "f1" 0 .timeout).client.last_status = liveClient.last_status ∧
    (liveClient.turn_off "f1" 0 .timeout).client.last_status = liveClient.last_status ∧
    (liveClient.set_brightness 50 "f1" 0 .timeout).client.last_status =
      liveClient.last_status ∧
    (liveClient.set_color_rgb 10 20 30 "f1" 0 .timeout).client.last_status =
      liveClient.last_status :=
  ⟨(C10_cache_unchanged_unless_success liveClient "f1" 0 .timeout 50 10 20 30).1
      (fun h => Bool.noConfusion (Except.ok.inj h)),
   (C10_cache_unchanged_unless_success liveClient "f1" 0 .timeout 50 10 20 30).2.1
      (fun h => Bool.noConfusion (Except.ok.inj h)),
   (C10_cache_unchanged_unless_success liveClient "f1" 0 .timeout 50 10 20 30).2.2.1
      (fun h => Bool.noConfusion (Except.ok.inj h)),
   (C10_cache_unchanged_unless_success liveClient "f1" 0 .timeout 50 10 20 30).2.2.2
      (fun h => Bool.noConfusion (Except.ok.inj h))⟩

end SmartBulb
